import Mathlib

/-!
Shallow embedding of `src/index.ts` (B1 Service Layer client).

Modelling conventions:
* Instants are `Int` milliseconds; `dayjs().add(m, 'minute')` is `addMinutes`.
  `this.startSessionTime`/`this.endSessionTime` start as `null` (constructor),
  so they are `Option Int`; dayjs comparison against `null` (an invalid date)
  yields `false`, which `isAfter` reflects.
* The HTTP transport is an oracle: each awaited axios call is given its
  network outcome (`HttpOutcome`) as an argument.  Axios resolves the call
  when `validateStatus` accepts the status and rejects (throws) otherwise,
  producing an error object `{response, request, message}` (`AxiosError`).
* Payload bodies (`result.data`) are a type parameter `D`; the untyped field
  accesses `result.data.SessionId` / `result.data.SessionTimeout` made by
  `createSession` are the parameters `sid : D → String`, `stm : D → Int`.
* Async methods are pure state transformers `SLState → ... → SLState × ...`;
  a raised error is an `Except.error`.  `dayjs()` is evaluated at the single
  instant `now` passed to the operation (time does not advance inside one
  operation).
* Login-call counting: `refreshSession` additionally returns how many
  `POST Login` requests it issued (0 or 1), instrumenting the spec's
  "issues zero/one login calls".
-/

/-- `ConfigProp` from src/index.ts lines 13–21. -/
structure ConfigProp where
  port : Nat
  version : String
  debug : Bool
  host : String
  company : String
  password : String
  username : String
deriving Repr, DecidableEq

/-- Constructor defaults (src/index.ts lines 33–43). -/
def initConfig : ConfigProp :=
  { port := 80, version := "v2", debug := false, host := "http://localhost",
    company := "", password := "", username := "" }

/-- The axios instance created at line 60: its base URL and the session
cookie later installed on `instance.defaults.headers.common.Cookie`. -/
structure Instance where
  baseURL : String
  cookie : Option String
deriving Repr, DecidableEq

/-- The mutable fields of class `ServiceLayer` (src/index.ts lines 24–28).
`httpInstance` is `this.instance` (`null` before `createSession`). -/
structure SLState where
  httpInstance : Option Instance
  sessionTimeout : Int
  startSessionTime : Option Int
  endSessionTime : Option Int
  config : ConfigProp
deriving Repr, DecidableEq

/-- State after the constructor (lines 24–43). -/
def initState : SLState :=
  { httpInstance := none, sessionTimeout := 0, startSessionTime := none,
    endSessionTime := none, config := initConfig }

/-- `t.add(m, 'minute')` on an instant in milliseconds. -/
def addMinutes (t : Int) (m : Int) : Int := t + m * 60000

/-- `now.isAfter(t)`: strict; comparison against `null` (invalid date) is
`false`. -/
def isAfter (now : Int) (t : Option Int) : Bool :=
  match t with
  | none => false
  | some e => e < now

/-- The `validateStatus` predicate installed on the instance
(src/index.ts lines 64–66): 2xx or 405 resolve, all else rejects. -/
def validateStatus (status : Int) : Bool :=
  (200 ≤ status && status < 300) || status == 405

/-- An axios response object (the fields `parseError` reads). -/
structure Response (D : Type) where
  status : Int
  statusText : String
  data : D
deriving Repr, DecidableEq

/-- The error object axios rejects with: `{response, request, message}`.
`request` is modelled by its `path` (the only field read). -/
structure AxiosError (D : Type) where
  response : Option (Response D)
  request : Option String
  message : String
deriving Repr, DecidableEq

/-- Network outcome of one request, supplied by the environment:
the server responded (any status), the request went out but no response
arrived, or the request could not be constructed/sent. -/
inductive HttpOutcome (D : Type) where
  | response (status : Int) (statusText : String) (path : String) (data : D)
  | noResponse (path : String)
  | setupFailure (message : String)
deriving Repr, DecidableEq

/-- Axios call semantics under `validateStatus`: a received response
resolves iff its status is accepted, otherwise the call rejects with an
`AxiosError` carrying `response` and `request`; a sent-but-unanswered
request rejects with `request` only; a setup failure rejects with
`message` only. -/
def axiosCall {D : Type} (o : HttpOutcome D) : Except (AxiosError D) D :=
  match o with
  | .response status statusText path data =>
      if validateStatus status then .ok data
      else .error { response := some { status := status, statusText := statusText, data := data },
                    request := some path,
                    message := "Request failed with status code " ++ toString status }
  | .noResponse path =>
      .error { response := none, request := some path, message := "Network Error" }
  | .setupFailure message =>
      .error { response := none, request := none, message := message }

/-- The shallow merge `{ ...this.config, ...config }` at line 50.  Every
field of `ConfigProp` is required, so the spread of a full `config` over
the stored defaults takes every field from the new `config`. -/
def mergeConfig (_old c : ConfigProp) : ConfigProp :=
  { port := c.port, version := c.version, debug := c.debug, host := c.host,
    company := c.company, password := c.password, username := c.username }

/-- Host normalization, lines 56–58: if the last character is `/`
(`config.host.slice(-1) === '/'`), drop exactly that character
(`config.host.substring(0, config.host.length - 1)`). -/
def normalizeHost (h : String) : String :=
  if h.takeRight 1 = "/" then h.dropRight 1 else h

/-- Base URL built at line 71. -/
def mkBaseURL (c : ConfigProp) : String :=
  c.host ++ ":" ++ toString c.port ++ "/b1s/" ++ c.version ++ "/"

/-- Cookie installed at line 79. -/
def mkCookie (sessionId company : String) : String :=
  "B1SESSION=" ++ sessionId ++ ";CompanyDB=" ++ company

variable {D : Type}

namespace ServiceLayer

/-- `createSession` (src/index.ts lines 49–93).  Mutations before the
login `await` (config merge, host normalization, instance creation)
persist even when the login rejects; the session fields are written only
after a resolved login.  `sid`/`stm` are the untyped accesses
`result.data.SessionId` / `result.data.SessionTimeout`; `login` is the
network outcome of `POST Login`; `now` is the instant `dayjs()` returns
at line 85.  Returns the new state and `Except.error e` when the login
rejected (the error is re-raised: there is no try/catch). -/
def createSession (sid : D → String) (stm : D → Int)
    (st : SLState) (cfg : ConfigProp) (now : Int) (login : HttpOutcome D) :
    SLState × Except (AxiosError D) Unit :=
  let config := mergeConfig st.config cfg
  let config := { config with host := normalizeHost config.host }
  let st := { st with config := config,
                      httpInstance := some { baseURL := mkBaseURL config, cookie := none } }
  match axiosCall login with
  | .error e => (st, .error e)
  | .ok d =>
      let st := { st with
        httpInstance := some { baseURL := mkBaseURL config,
                               cookie := some (mkCookie (sid d) config.company) },
        sessionTimeout := stm d,
        startSessionTime := some now,
        endSessionTime := some (addMinutes now (stm d - 1)) }
      (st, .ok ())

/-- `refreshSession` (src/index.ts lines 98–106): re-login iff the
current instant is strictly after `endSessionTime`.  The `Nat` component
counts the `POST Login` requests issued (createSession issues exactly
one). -/
def refreshSession (sid : D → String) (stm : D → Int)
    (st : SLState) (now : Int) (login : HttpOutcome D) :
    SLState × Except (AxiosError D) Unit × Nat :=
  if isAfter now st.endSessionTime then
    let (st', r) := createSession sid stm st st.config now login
    (st', r, 1)
  else
    (st, .ok (), 0)

/-- The tagged result object `{error: true, message: ...}` that
`parseError` returns.  `message` is either a server response body
(`Sum.inl`, the `response.data` branch) or a string (`Sum.inr`, the
`'ERROR REQUEST'` literal or the underlying error message). -/
structure TaggedResult (D : Type) where
  error : Bool
  message : D ⊕ String
deriving Repr, DecidableEq

/-- `parseError` (src/index.ts lines 208–225): three shapes keyed on
which fields the axios error carries.  The `console.error` diagnostics
are side effects with no data flow and are not modelled. -/
def parseError (e : AxiosError D) : TaggedResult D :=
  match e.response with
  | some r => { error := true, message := Sum.inl r.data }
  | none =>
      match e.request with
      | some _ => { error := true, message := Sum.inr "ERROR REQUEST" }
      | none => { error := true, message := Sum.inr e.message }

/-- `query` (src/index.ts lines 114–118): `refreshSession`, then
`instance.get`, returning `result.data`.  No try/catch: a rejection from
either the re-login or the GET propagates to the caller unchanged.
`q` and `options` are forwarded opaquely to the transport oracle `req`. -/
def query (sid : D → String) (stm : D → Int) (st : SLState) (now : Int)
    (login : HttpOutcome D) (q : String) (req : HttpOutcome D) :
    SLState × Except (AxiosError D) D :=
  let (st1, r, _) := refreshSession sid stm st now login
  match r with
  | .error e => (st1, .error e)
  | .ok _ =>
      match axiosCall req with
      | .error e => (st1, .error e)
      | .ok d => (st1, .ok d)

/-- `get` (src/index.ts lines 152–160): the whole body — including
`await this.refreshSession()` — sits inside `try`, and the catch returns
`this.parseError(error)`.  `Sum.inl` is the resolved `result.data`,
`Sum.inr` the tagged error object. -/
def get (sid : D → String) (stm : D → Int) (st : SLState) (now : Int)
    (login : HttpOutcome D) (resource : String) (req : HttpOutcome D) :
    SLState × (D ⊕ TaggedResult D) :=
  let (st1, r, _) := refreshSession sid stm st now login
  match r with
  | .error e => (st1, Sum.inr (parseError e))
  | .ok _ =>
      match axiosCall req with
      | .ok d => (st1, Sum.inl d)
      | .error e => (st1, Sum.inr (parseError e))

/-- `put` (src/index.ts lines 168–176): same try/catch shape as `get`;
`data` is forwarded opaquely to the transport oracle `req`. -/
def put (sid : D → String) (stm : D → Int) (st : SLState) (now : Int)
    (login : HttpOutcome D) (resource : String) (data : D) (req : HttpOutcome D) :
    SLState × (D ⊕ TaggedResult D) :=
  let (st1, r, _) := refreshSession sid stm st now login
  match r with
  | .error e => (st1, Sum.inr (parseError e))
  | .ok _ =>
      match axiosCall req with
      | .ok d => (st1, Sum.inl d)
      | .error e => (st1, Sum.inr (parseError e))

/-- `patch` (src/index.ts lines 181–189): same try/catch shape as `get`. -/
def patch (sid : D → String) (stm : D → Int) (st : SLState) (now : Int)
    (login : HttpOutcome D) (resource : String) (data : D) (req : HttpOutcome D) :
    SLState × (D ⊕ TaggedResult D) :=
  let (st1, r, _) := refreshSession sid stm st now login
  match r with
  | .error e => (st1, Sum.inr (parseError e))
  | .ok _ =>
      match axiosCall req with
      | .ok d => (st1, Sum.inl d)
      | .error e => (st1, Sum.inr (parseError e))

/-- `post` (src/index.ts lines 194–202): same try/catch shape as `get`. -/
def post (sid : D → String) (stm : D → Int) (st : SLState) (now : Int)
    (login : HttpOutcome D) (resource : String) (data : D) (req : HttpOutcome D) :
    SLState × (D ⊕ TaggedResult D) :=
  let (st1, r, _) := refreshSession sid stm st now login
  match r with
  | .error e => (st1, Sum.inr (parseError e))
  | .ok _ =>
      match axiosCall req with
      | .ok d => (st1, Sum.inl d)
      | .error e => (st1, Sum.inr (parseError e))

/-!
Pagination engine (`find`, src/index.ts lines 127–144).

`find` reads only two fields of each page body: `request.value` and
`request['@odata.nextLink']`, so a page body is embedded as `Page`.
Each `await this.query(...)` consumes the next entry of the oracle list
`outcomes` (an `Except.error e` entry is a query call that raised `e`;
`query` has no catch, and neither has `find`, so `e` propagates).  The
trace component records, per query call in order, the `options` argument
passed (`none` = argument omitted, so `query`'s default `{}` applies).
The result's outer `Option` is a model artifact only: `none` means the
oracle list was shorter than the number of query calls the code makes,
which no theorem's inputs allow.  The leading
`await this.refreshSession()` at line 128 and the one inside each
`query` call issue no query requests and do not touch the page data
flow, so they are not repeated in this model.
-/

/-- A page body as `find` consumes it. -/
structure Page (α : Type) where
  value : List α
  nextLink : Option String
deriving Repr, DecidableEq

variable {E α Opts : Type}

/-- The `while` loop of `find` (src/index.ts lines 138–141): while the
current page carries `@odata.nextLink`, issue `this.query(link, options)`
and append its `value`. -/
def findWhile (request : Page α) (outcomes : List (Except E (Page α)))
    (options : Opts) (result : List α) (trace : List (Option Opts)) :
    Option (Except E (List α)) × List (Option Opts) :=
  match request.nextLink with
  | none => (some (.ok result), trace)
  | some _ =>
      match outcomes with
      | [] => (none, trace)
      | o :: rest =>
          match o with
          | .error e => (some (.error e), trace ++ [some options])
          | .ok page =>
              findWhile page rest options (result ++ page.value) (trace ++ [some options])

/-- `find` (src/index.ts lines 127–144).  Line 131 issues
`this.query(query)` with the `options` argument omitted; line 135 (the
first follow-up, inside the `if`) and line 139 (the `while` body) issue
`this.query(request['@odata.nextLink'], options)`. -/
def find (outcomes : List (Except E (Page α))) (options : Opts) :
    Option (Except E (List α)) × List (Option Opts) :=
  match outcomes with
  | [] => (none, [])
  | o :: rest =>
      match o with
      | .error e => (some (.error e), [none])
      | .ok request =>
          let result := ([] : List α) ++ request.value
          match request.nextLink with
          | none => (some (.ok result), [none])
          | some _ =>
              match rest with
              | [] => (none, [none])
              | o2 :: rest2 =>
                  match o2 with
                  | .error e => (some (.error e), [none, some options])
                  | .ok page2 =>
                      findWhile page2 rest2 options (result ++ page2.value)
                        [none, some options]

/-- A well-formed page chain: nonempty, every page but the last carries
`@odata.nextLink`, the last does not. -/
def chainB : List (Page α) → Bool
  | [] => false
  | [p] => p.nextLink = none
  | p :: q :: rest => p.nextLink ≠ none && chainB (q :: rest)

/-- The login response body shape the Wire protocol documents
(`{SessionId, SessionTimeout}`); used as the concrete payload type `D`
in closed instances of the theorems below. -/
structure LoginBody where
  SessionId : String
  SessionTimeout : Int
deriving Repr, DecidableEq

/-- C5: for every successful login returning a server timeout of
`sessionTimeout` minutes (`sessionTimeout ≥ 1`), the stored expiry
instant equals the session creation instant plus
`(sessionTimeout − 1)` minutes, exactly (src/index.ts lines 84–86). -/
theorem C5_expiry_margin (sid : D → String) (stm : D → Int) (st : SLState)
    (cfg : ConfigProp) (now status : Int) (text path : String) (d : D)
    (hs : validateStatus status = true) (ht : 1 ≤ stm d) :
    (createSession sid stm st cfg now (.response status text path d)).1.startSessionTime
        = some now ∧
    (createSession sid stm st cfg now (.response status text path d)).1.endSessionTime
        = some (addMinutes now (stm d - 1)) ∧
    (createSession sid stm st cfg now (.response status text path d)).1.sessionTimeout
        = stm d := by
  simp [createSession, axiosCall, hs]

theorem C5_expiry_margin_witness :
    (createSession LoginBody.SessionId LoginBody.SessionTimeout initState
        { initConfig with host := "https://sap", company := "DB" } 1000
        (.response 200 "OK" "Login" { SessionId := "S1", SessionTimeout := 30 })).1.startSessionTime
        = some 1000 ∧
    (createSession LoginBody.SessionId LoginBody.SessionTimeout initState
        { initConfig with host := "https://sap", company := "DB" } 1000
        (.response 200 "OK" "Login" { SessionId := "S1", SessionTimeout := 30 })).1.endSessionTime
        = some (addMinutes 1000 (30 - 1)) ∧
    (createSession LoginBody.SessionId LoginBody.SessionTimeout initState
        { initConfig with host := "https://sap", company := "DB" } 1000
        (.response 200 "OK" "Login" { SessionId := "S1", SessionTimeout := 30 })).1.sessionTimeout
        = 30 :=
  C5_expiry_margin LoginBody.SessionId LoginBody.SessionTimeout initState
    { initConfig with host := "https://sap", company := "DB" } 1000 200
    "OK" "Login" { SessionId := "S1", SessionTimeout := 30 } (by decide) (by decide)

/-- C8: `createSession` stores the host with exactly one trailing slash
removed when present, unchanged otherwise, and builds the base URL from
the normalized host (src/index.ts lines 56–58 and 71).  Holds whatever
the login outcome, since the host is normalized before the login
request. -/
theorem C8_trailing_slash (sid : D → String) (stm : D → Int) (st : SLState)
    (cfg : ConfigProp) (now : Int) (login : HttpOutcome D) :
    (createSession sid stm st cfg now login).1.config.host
      = (if cfg.host.takeRight 1 = "/" then cfg.host.dropRight 1 else cfg.host) ∧
    ((createSession sid stm st cfg now login).1.httpInstance.map Instance.baseURL)
      = some ((if cfg.host.takeRight 1 = "/" then cfg.host.dropRight 1 else cfg.host)
          ++ ":" ++ toString cfg.port ++ "/b1s/" ++ cfg.version ++ "/") := by
  unfold createSession
  cases h : axiosCall login <;>
    simp [mergeConfig, normalizeHost, mkBaseURL]

/-- C1 counterexample: a session whose expiry instant is 1000; calling
`refreshSession` exactly at instant 1000 — "at `expiresAt`" — issues 0
login calls and leaves the state unchanged, where the claim demands
exactly one login call.  `now.isAfter(endSessionTime)` (line 100) is a
strict comparison. -/
theorem C1_at_expiry_counterexample :
    (refreshSession LoginBody.SessionId LoginBody.SessionTimeout
        { initState with endSessionTime := some 1000 } 1000
        (.response 200 "OK" "Login" { SessionId := "S2", SessionTimeout := 30 })).2.2
      = 0 ∧
    (refreshSession LoginBody.SessionId LoginBody.SessionTimeout
        { initState with endSessionTime := some 1000 } 1000
        (.response 200 "OK" "Login" { SessionId := "S2", SessionTimeout := 30 })).1
      = { initState with endSessionTime := some 1000 } ∧
    (0 : Nat) ≠ 1 := by
  refine ⟨?_, ?_, by decide⟩ <;> rfl

/-- C1 (amended): for every session with expiry instant `expiresAt`,
calling `refreshSession` at or before `expiresAt` issues zero login
calls and leaves the whole state unchanged; calling it strictly after
`expiresAt` issues exactly one login call that, when the login succeeds,
replaces the session fields (timeout, creation and expiry instants, and
the session cookie). -/
theorem C1_refresh_boundary (sid : D → String) (stm : D → Int) (st : SLState)
    (now e status : Int) (text path : String) (d : D)
    (hsession : st.endSessionTime = some e) (hs : validateStatus status = true) :
    (now ≤ e →
      refreshSession sid stm st now (.response status text path d) = (st, .ok (), 0)) ∧
    (e < now →
      (refreshSession sid stm st now (.response status text path d)).2.2 = 1 ∧
      (refreshSession sid stm st now (.response status text path d)).1.sessionTimeout
          = stm d ∧
      (refreshSession sid stm st now (.response status text path d)).1.startSessionTime
          = some now ∧
      (refreshSession sid stm st now (.response status text path d)).1.endSessionTime
          = some (addMinutes now (stm d - 1)) ∧
      (refreshSession sid stm st now (.response status text path d)).1.httpInstance
          = some { baseURL := mkBaseURL { st.config with host := normalizeHost st.config.host },
                   cookie := some (mkCookie (sid d) st.config.company) }) := by
  constructor
  · intro hle
    have hfalse : isAfter now st.endSessionTime = false := by
      simp [isAfter, hsession]; omega
    simp [refreshSession, hfalse]
  · intro hlt
    have htrue : isAfter now st.endSessionTime = true := by
      simp [isAfter, hsession]; omega
    simp [refreshSession, htrue, createSession, axiosCall, hs, mergeConfig]

theorem C1_refresh_boundary_witness :
    (refreshSession LoginBody.SessionId LoginBody.SessionTimeout
        { initState with endSessionTime := some 1000 } 900
        (.response 200 "OK" "Login" { SessionId := "S2", SessionTimeout := 30 }))
      = ({ initState with endSessionTime := some 1000 }, .ok (), 0) ∧
    (refreshSession LoginBody.SessionId LoginBody.SessionTimeout
        { initState with endSessionTime := some 1000 } 1100
        (.response 200 "OK" "Login" { SessionId := "S2", SessionTimeout := 30 })).2.2
      = 1 :=
  ⟨(C1_refresh_boundary LoginBody.SessionId LoginBody.SessionTimeout
      { initState with endSessionTime := some 1000 } 900 1000 200 "OK" "Login"
      { SessionId := "S2", SessionTimeout := 30 } rfl (by decide)).1 (by decide),
   ((C1_refresh_boundary LoginBody.SessionId LoginBody.SessionTimeout
      { initState with endSessionTime := some 1000 } 1100 1000 200 "OK" "Login"
      { SessionId := "S2", SessionTimeout := 30 } rfl (by decide)).2 (by decide)).1⟩

/-- C3 counterexample: an expired session (expiry 0, call at instant 1)
and a login that gets no response.  The transparent re-login triggered
from within `get` fails, and `get` returns the tagged
`{error: true, message: "ERROR REQUEST"}` object — the login failure IS
converted into a tagged result, because `await this.refreshSession()`
sits inside `get`'s try/catch (src/index.ts lines 152–160). -/
theorem C3_login_failure_counterexample :
    (get LoginBody.SessionId LoginBody.SessionTimeout
        { initState with endSessionTime := some 0 } 1 (.noResponse "Login")
        "Orders(1)" (.response 200 "OK" "Orders(1)" { SessionId := "", SessionTimeout := 0 })).2
      = Sum.inr { error := true, message := Sum.inr "ERROR REQUEST" } := by
  rfl

/-- C3 (amended): a login failure is raised unchanged to the immediate
caller of `createSession` and of `refreshSession`, and propagates
unchanged out of `query`; but when the failing login is the transparent
re-login triggered from within `get`, `put`, `patch` or `post` on an
expired session, the facade's catch converts it into the tagged
`parseError` result instead of raising. -/
theorem C3_login_failure_propagation (sid : D → String) (stm : D → Int)
    (st : SLState) (cfg : ConfigProp) (now : Int) (login : HttpOutcome D)
    (e : AxiosError D) (resource : String) (d : D) (req : HttpOutcome D)
    (hlogin : axiosCall login = .error e)
    (hexpired : isAfter now st.endSessionTime = true) :
    (createSession sid stm st cfg now login).2 = .error e ∧
    (refreshSession sid stm st now login).2.1 = .error e ∧
    (query sid stm st now login resource req).2 = .error e ∧
    (get sid stm st now login resource req).2 = Sum.inr (parseError e) ∧
    (put sid stm st now login resource d req).2 = Sum.inr (parseError e) ∧
    (patch sid stm st now login resource d req).2 = Sum.inr (parseError e) ∧
    (post sid stm st now login resource d req).2 = Sum.inr (parseError e) := by
  simp [createSession, refreshSession, query, get, put, patch, post,
        hexpired, hlogin]

theorem C3_login_failure_propagation_witness :
    (createSession LoginBody.SessionId LoginBody.SessionTimeout
        { initState with endSessionTime := some 0 } initConfig 1 (.noResponse "Login")).2
      = .error { response := none, request := some "Login", message := "Network Error" } ∧
    (refreshSession LoginBody.SessionId LoginBody.SessionTimeout
        { initState with endSessionTime := some 0 } 1 (.noResponse "Login")).2.1
      = .error { response := none, request := some "Login", message := "Network Error" } ∧
    (query LoginBody.SessionId LoginBody.SessionTimeout
        { initState with endSessionTime := some 0 } 1 (.noResponse "Login")
        "Orders" (.response 200 "OK" "Orders" { SessionId := "", SessionTimeout := 0 })).2
      = .error { response := none, request := some "Login", message := "Network Error" } ∧
    (get LoginBody.SessionId LoginBody.SessionTimeout
        { initState with endSessionTime := some 0 } 1 (.noResponse "Login")
        "Orders" (.response 200 "OK" "Orders" { SessionId := "", SessionTimeout := 0 })).2
      = Sum.inr (parseError { response := none, request := some "Login",
                              message := "Network Error" }) ∧
    (put LoginBody.SessionId LoginBody.SessionTimeout
        { initState with endSessionTime := some 0 } 1 (.noResponse "Login")
        "Orders" { SessionId := "", SessionTimeout := 0 }
        (.response 200 "OK" "Orders" { SessionId := "", SessionTimeout := 0 })).2
      = Sum.inr (parseError { response := none, request := some "Login",
                              message := "Network Error" }) ∧
    (patch LoginBody.SessionId LoginBody.SessionTimeout
        { initState with endSessionTime := some 0 } 1 (.noResponse "Login")
        "Orders" { SessionId := "", SessionTimeout := 0 }
        (.response 200 "OK" "Orders" { SessionId := "", SessionTimeout := 0 })).2
      = Sum.inr (parseError { response := none, request := some "Login",
                              message := "Network Error" }) ∧
    (post LoginBody.SessionId LoginBody.SessionTimeout
        { initState with endSessionTime := some 0 } 1 (.noResponse "Login")
        "Orders" { SessionId := "", SessionTimeout := 0 }
        (.response 200 "OK" "Orders" { SessionId := "", SessionTimeout := 0 })).2
      = Sum.inr (parseError { response := none, request := some "Login",
                              message := "Network Error" }) :=
  C3_login_failure_propagation LoginBody.SessionId LoginBody.SessionTimeout
    { initState with endSessionTime := some 0 } initConfig 1 (.noResponse "Login")
    { response := none, request := some "Login", message := "Network Error" }
    "Orders" { SessionId := "", SessionTimeout := 0 }
    (.response 200 "OK" "Orders" { SessionId := "", SessionTimeout := 0 })
    rfl rfl

/-- C4: for every transport failure during `get`, `put`, `patch` or
`post` on a non-expired session, the operation returns the tagged value
`{error: true, message: ...}` instead of raising, with three distinct
message shapes: the server response body for a rejected status, the
literal `"ERROR REQUEST"` when the request got no response, and the
underlying error message when the request was never sent
(src/index.ts lines 152–202 and 208–225). -/
theorem C4_tagged_error_shapes (sid : D → String) (stm : D → Int)
    (st : SLState) (now status : Int) (login : HttpOutcome D)
    (resource text path msg : String) (d body : D)
    (hvalid : isAfter now st.endSessionTime = false)
    (hbad : validateStatus status = false) :
    ((get sid stm st now login resource (.response status text path body)).2
        = Sum.inr { error := true, message := Sum.inl body } ∧
     (get sid stm st now login resource (.noResponse path)).2
        = Sum.inr { error := true, message := Sum.inr "ERROR REQUEST" } ∧
     (get sid stm st now login resource (.setupFailure msg)).2
        = Sum.inr { error := true, message := Sum.inr msg }) ∧
    ((put sid stm st now login resource d (.response status text path body)).2
        = Sum.inr { error := true, message := Sum.inl body } ∧
     (put sid stm st now login resource d (.noResponse path)).2
        = Sum.inr { error := true, message := Sum.inr "ERROR REQUEST" } ∧
     (put sid stm st now login resource d (.setupFailure msg)).2
        = Sum.inr { error := true, message := Sum.inr msg }) ∧
    ((patch sid stm st now login resource d (.response status text path body)).2
        = Sum.inr { error := true, message := Sum.inl body } ∧
     (patch sid stm st now login resource d (.noResponse path)).2
        = Sum.inr { error := true, message := Sum.inr "ERROR REQUEST" } ∧
     (patch sid stm st now login resource d (.setupFailure msg)).2
        = Sum.inr { error := true, message := Sum.inr msg }) ∧
    ((post sid stm st now login resource d (.response status text path body)).2
        = Sum.inr { error := true, message := Sum.inl body } ∧
     (post sid stm st now login resource d (.noResponse path)).2
        = Sum.inr { error := true, message := Sum.inr "ERROR REQUEST" } ∧
     (post sid stm st now login resource d (.setupFailure msg)).2
        = Sum.inr { error := true, message := Sum.inr msg }) := by
  simp [get, put, patch, post, refreshSession, hvalid, axiosCall, hbad, parseError]

theorem C4_tagged_error_shapes_witness :
    (get LoginBody.SessionId LoginBody.SessionTimeout
        { initState with endSessionTime := some 10 } 5
        (.response 200 "OK" "Login" { SessionId := "S", SessionTimeout := 30 })
        "Orders" (.response 404 "Not Found" "Orders"
          { SessionId := "body404", SessionTimeout := 0 })).2
      = Sum.inr ({ error := true,
                   message := Sum.inl { SessionId := "body404", SessionTimeout := 0 } }) ∧
    (get LoginBody.SessionId LoginBody.SessionTimeout
        { initState with endSessionTime := some 10 } 5
        (.response 200 "OK" "Login" { SessionId := "S", SessionTimeout := 30 })
        "Orders" (.noResponse "Orders")).2
      = Sum.inr { error := true, message := Sum.inr "ERROR REQUEST" } ∧
    (post LoginBody.SessionId LoginBody.SessionTimeout
        { initState with endSessionTime := some 10 } 5
        (.response 200 "OK" "Login" { SessionId := "S", SessionTimeout := 30 })
        "Orders" { SessionId := "", SessionTimeout := 0 }
        (.setupFailure "bad config")).2
      = Sum.inr { error := true, message := Sum.inr "bad config" } :=
  have h := C4_tagged_error_shapes LoginBody.SessionId LoginBody.SessionTimeout
    { initState with endSessionTime := some 10 } 5 404
    (.response 200 "OK" "Login" { SessionId := "S", SessionTimeout := 30 })
    "Orders" "Not Found" "Orders" "bad config"
    { SessionId := "", SessionTimeout := 0 }
    { SessionId := "body404", SessionTimeout := 0 } rfl (by decide)
  ⟨h.1.1, h.1.2.1, h.2.2.2.2.2⟩

/-- C9: status 405 is treated as success end-to-end — `get` on a 405
response returns the body as a normal result, while every status outside
200–299 other than 405 yields the tagged error object; `validateStatus`
itself accepts 405 (src/index.ts lines 64–66 and 152–160). -/
theorem C9_status_405_is_success (sid : D → String) (stm : D → Int)
    (st : SLState) (now status : Int) (login : HttpOutcome D)
    (resource text path : String) (body : D)
    (hvalid : isAfter now st.endSessionTime = false)
    (hout : ¬ (200 ≤ status ∧ status < 300)) (h405 : status ≠ 405) :
    validateStatus 405 = true ∧
    (get sid stm st now login resource (.response 405 text path body)).2
        = Sum.inl body ∧
    (get sid stm st now login resource (.response status text path body)).2
        = Sum.inr { error := true, message := Sum.inl body } := by
  have hbad : validateStatus status = false := by
    simp only [validateStatus, Bool.or_eq_false_iff, Bool.and_eq_false_iff,
      beq_eq_false_iff_ne, ne_eq, decide_eq_false_iff_not, not_le, not_lt]
    constructor
    · omega
    · exact h405
  constructor
  · decide
  constructor
  · have h405ok : validateStatus 405 = true := by decide
    simp [get, refreshSession, hvalid, axiosCall, h405ok]
  · simp [get, refreshSession, hvalid, axiosCall, hbad, parseError]

theorem C9_status_405_is_success_witness :
    validateStatus 405 = true ∧
    (get LoginBody.SessionId LoginBody.SessionTimeout
        { initState with endSessionTime := some 10 } 5
        (.response 200 "OK" "Login" { SessionId := "S", SessionTimeout := 30 })
        "Orders" (.response 405 "Method Not Allowed" "Orders"
          { SessionId := "benign", SessionTimeout := 1 })).2
      = Sum.inl { SessionId := "benign", SessionTimeout := 1 } ∧
    (get LoginBody.SessionId LoginBody.SessionTimeout
        { initState with endSessionTime := some 10 } 5
        (.response 200 "OK" "Login" { SessionId := "S", SessionTimeout := 30 })
        "Orders" (.response 500 "Method Not Allowed" "Orders"
          { SessionId := "benign", SessionTimeout := 1 })).2
      = Sum.inr ({ error := true,
                   message := Sum.inl { SessionId := "benign", SessionTimeout := 1 } }) :=
  C9_status_405_is_success LoginBody.SessionId LoginBody.SessionTimeout
    { initState with endSessionTime := some 10 } 5 500
    (.response 200 "OK" "Login" { SessionId := "S", SessionTimeout := 30 })
    "Orders" "Method Not Allowed" "Orders"
    { SessionId := "benign", SessionTimeout := 1 } rfl (by decide) (by decide)

/-- Helper: running the `while` loop of `find` from page `r` over a
well-formed chain `rest` appends every remaining `value` in order and
passes the caller's options to every one of its query calls. -/
theorem findWhile_chain (rest : List (Page α)) : ∀ (r : Page α)
    (opts : Opts) (acc : List α) (trace : List (Option Opts)),
    chainB (r :: rest) = true →
    findWhile r ((rest.map Except.ok : List (Except E (Page α)))) opts acc trace
      = (some (Except.ok (acc ++ (rest.map Page.value).flatten)),
         trace ++ List.replicate rest.length (some opts)) := by
  induction rest with
  | nil =>
      intro r opts acc trace h
      have hr : r.nextLink = none := by simpa [chainB] using h
      simp [findWhile, hr]
  | cons p ps ih =>
      intro r opts acc trace h
      have h1 : ¬ r.nextLink = none ∧ chainB (p :: ps) = true := by
        simpa [chainB] using h
      obtain ⟨l, hl⟩ := Option.ne_none_iff_exists'.mp h1.1
      have hrec := ih p opts (acc ++ p.value) (trace ++ [some opts]) h1.2
      simp only [findWhile, hl, List.map_cons, List.length_cons, List.replicate_succ]
      rw [hrec]
      simp

/-- Helper: if every page before it is linked, the `while` loop of
`find` reaches the query call that raises `e` and propagates `e`. -/
theorem findWhile_error (pages : List (Page α)) : ∀ (r : Page α) (e : E)
    (outs : List (Except E (Page α))) (opts : Opts) (acc : List α)
    (trace : List (Option Opts)),
    (∀ p ∈ pages, p.nextLink.isSome) → r.nextLink.isSome →
    (findWhile r (pages.map Except.ok ++ Except.error e :: outs) opts acc trace).1
      = some (Except.error e) := by
  induction pages with
  | nil =>
      intro r e outs opts acc trace _ hr
      obtain ⟨l, hl⟩ := Option.isSome_iff_exists.mp hr
      simp [findWhile, hl]
  | cons p ps ih =>
      intro r e outs opts acc trace hp hr
      obtain ⟨l, hl⟩ := Option.isSome_iff_exists.mp hr
      simp only [findWhile, hl, List.map_cons, List.cons_append]
      exact ih p e outs opts (acc ++ p.value) (trace ++ [some opts])
        (fun x hx => hp x (List.mem_cons_of_mem _ hx)) (hp p (List.mem_cons_self _ _))

/-- C6: across a well-formed chain of `N ≥ 1` pages linked by
`@odata.nextLink`, `find` returns the concatenation of the `N` `value`
arrays in server order (no deduplication) and issues exactly `N` query
calls (src/index.ts lines 127–144). -/
theorem C6_find_concatenation (pages : List (Page α)) (opts : Opts)
    (h : chainB pages = true) :
    (find ((pages.map Except.ok : List (Except E (Page α)))) opts).1
        = some (Except.ok (pages.map Page.value).flatten) ∧
    (find ((pages.map Except.ok : List (Except E (Page α)))) opts).2.length
        = pages.length := by
  match pages with
  | [] => simp [chainB] at h
  | q :: rest =>
      match hq : q.nextLink, rest with
      | none, [] =>
          simp [find, hq]
      | none, p2 :: rest2 =>
          rw [chainB] at h
          simp [hq] at h
      | some l, [] =>
          rw [chainB] at h
          simp [hq] at h
      | some l, p2 :: rest2 =>
          have h2 : chainB (p2 :: rest2) = true := by
            rw [chainB] at h
            simp only [Bool.and_eq_true, decide_eq_true_eq] at h
            exact h.2
          have hrec := findWhile_chain (E := E) rest2 p2 opts
            (([] ++ q.value) ++ p2.value) [none, some opts] h2
          simp only [find, hq, List.map_cons]
          rw [hrec]
          simp [List.replicate_succ]

theorem C6_find_concatenation_witness :
    (find ([Except.ok { value := [1, 2], nextLink := some "p2" },
            Except.ok { value := [2], nextLink := some "p3" },
            Except.ok { value := [3], nextLink := none }]
          : List (Except Unit (Page Nat))) (0 : Nat)).1
        = some (Except.ok [1, 2, 2, 3]) ∧
    (find ([Except.ok { value := [1, 2], nextLink := some "p2" },
            Except.ok { value := [2], nextLink := some "p3" },
            Except.ok { value := [3], nextLink := none }]
          : List (Except Unit (Page Nat))) (0 : Nat)).2.length = 3 :=
  C6_find_concatenation
    [{ value := [1, 2], nextLink := some "p2" },
     { value := [2], nextLink := some "p3" },
     { value := [3], nextLink := none }] 0 (by decide)

/-- C7: on a response that carries no `@odata.nextLink`, `find` returns
exactly that response's `value` array, unmodified and in order, after a
single query call (src/index.ts lines 127–144). -/
theorem C7_find_single_page (p : Page α) (rest : List (Except E (Page α)))
    (opts : Opts) (h : p.nextLink = none) :
    find (Except.ok p :: rest) opts = (some (Except.ok p.value), [none]) := by
  simp [find, h]

theorem C7_find_single_page_witness :
    find ([Except.ok { value := [10, 20, 10], nextLink := none }]
        : List (Except Unit (Page Nat))) (0 : Nat)
      = (some (Except.ok [10, 20, 10]), [none]) :=
  C7_find_single_page { value := [10, 20, 10], nextLink := none } [] 0 rfl

/-- C2 counterexample: a two-page chain queried with options `7`.  The
recorded per-call options trace is `[none, some 7]`: the *first
follow-up* call (index 1) received the caller's options — it is the
*initial* call (index 0) that omitted them — so the claim that `find`
ignores the options for the first follow-up fetch is false
(src/index.ts lines 131 and 135). -/
theorem C2_followup_options_counterexample :
    (find ([Except.ok { value := [1], nextLink := some "p2" },
            Except.ok { value := [2], nextLink := none }]
          : List (Except Unit (Page Nat))) (7 : Nat)).2
      = [none, some 7] ∧
    (find ([Except.ok { value := [1], nextLink := some "p2" },
            Except.ok { value := [2], nextLink := none }]
          : List (Except Unit (Page Nat))) (7 : Nat)).2.get? 1 ≠ some none := by
  constructor
  · rfl
  · decide

/-- C2 (amended): across every well-formed chain of linked pages, `find`
omits the caller-supplied options argument for the *initial* page fetch
(line 131 calls `this.query(query)` without it) and passes that options
argument to the first follow-up fetch and every subsequent one (lines
135 and 139). -/
theorem C2_options_asymmetry (pages : List (Page α)) (opts : Opts)
    (h : chainB pages = true) :
    (find ((pages.map Except.ok : List (Except Unit (Page α)))) opts).2
      = none :: List.replicate (pages.length - 1) (some opts) := by
  match pages with
  | [] => simp [chainB] at h
  | q :: rest =>
      match hq : q.nextLink, rest with
      | none, [] =>
          simp [find, hq]
      | none, p2 :: rest2 =>
          rw [chainB] at h
          simp [hq] at h
      | some l, [] =>
          rw [chainB] at h
          simp [hq] at h
      | some l, p2 :: rest2 =>
          have h2 : chainB (p2 :: rest2) = true := by
            rw [chainB] at h
            simp only [Bool.and_eq_true, decide_eq_true_eq] at h
            exact h.2
          have hrec := findWhile_chain (E := Unit) rest2 p2 opts
            (([] ++ q.value) ++ p2.value) [none, some opts] h2
          simp only [find, hq, List.map_cons]
          rw [hrec]
          simp [List.replicate_succ]

theorem C2_options_asymmetry_witness :
    (find ([Except.ok { value := [1], nextLink := some "p2" },
            Except.ok { value := [2], nextLink := some "p3" },
            Except.ok { value := [3], nextLink := none }]
          : List (Except Unit (Page Nat))) (7 : Nat)).2
      = none :: List.replicate 2 (some 7) :=
  C2_options_asymmetry
    [{ value := [1], nextLink := some "p2" },
     { value := [2], nextLink := some "p3" },
     { value := [3], nextLink := none }] 7 (by decide)

/-- C10: transport failures during `query` and `find` are raised to the
caller unchanged: a rejected login or GET propagates out of `query`
(lines 114–118, no try/catch), and a query call that raises inside
`find` — whether the first call or any mid-chain follow-up — propagates
out of `find` (lines 127–144, no try/catch); neither ever returns a
tagged `{error, message}` value. -/
theorem C10_query_find_propagate (sid : D → String) (stm : D → Int)
    (st : SLState) (now : Int) (login : HttpOutcome D) (qs : String)
    (req : HttpOutcome D) (e eL : AxiosError D) (e' : E)
    (outs : List (Except E (Page α))) (opts : Opts) (qp : Page α)
    (pages : List (Page α)) :
    (isAfter now st.endSessionTime = false → axiosCall req = .error e →
        (query sid stm st now login qs req).2 = .error e) ∧
    (isAfter now st.endSessionTime = true → axiosCall login = .error eL →
        (query sid stm st now login qs req).2 = .error eL) ∧
    ((find (Except.error e' :: outs) opts).1 = some (Except.error e')) ∧
    ((∀ p ∈ qp :: pages, p.nextLink.isSome) →
        (find ((qp :: pages).map Except.ok ++ Except.error e' :: outs) opts).1
          = some (Except.error e')) := by
  refine ⟨?_, ?_, ?_, ?_⟩
  · intro hvalid hreq
    simp [query, refreshSession, hvalid, hreq]
  · intro hexp hlogin
    simp [query, refreshSession, createSession, hexp, hlogin]
  · simp [find]
  · intro hall
    obtain ⟨l, hl⟩ := Option.isSome_iff_exists.mp (hall qp (List.mem_cons_self _ _))
    match pages with
    | [] =>
        simp [find, hl]
    | p2 :: rest2 =>
        simp only [find, hl, List.map_cons, List.cons_append]
        exact findWhile_error rest2 p2 e' outs opts (([] ++ qp.value) ++ p2.value)
          [none, some opts]
          (fun x hx => hall x (List.mem_cons_of_mem _ (List.mem_cons_of_mem _ hx)))
          (hall p2 (List.mem_cons_of_mem _ (List.mem_cons_self _ _)))

theorem C10_query_find_propagate_witness :
    (query LoginBody.SessionId LoginBody.SessionTimeout
        { initState with endSessionTime := some 10 } 5
        (.response 200 "OK" "Login" { SessionId := "S", SessionTimeout := 30 })
        "Orders" (.noResponse "Orders")).2
      = .error { response := none, request := some "Orders",
                 message := "Network Error" } ∧
    (find ([Except.ok { value := [1], nextLink := some "p2" },
            Except.error (0 : Nat)] : List (Except Nat (Page Nat))) (7 : Nat)).1
      = some (Except.error 0) :=
  have h := C10_query_find_propagate LoginBody.SessionId LoginBody.SessionTimeout
    { initState with endSessionTime := some 10 } 5
    (.response 200 "OK" "Login" { SessionId := "S", SessionTimeout := 30 })
    "Orders" (.noResponse "Orders")
    { response := none, request := some "Orders", message := "Network Error" }
    { response := none, request := some "Orders", message := "Network Error" }
    (0 : Nat) [] (7 : Nat) { value := [1], nextLink := some "p2" } []
  ⟨h.1 rfl rfl, h.2.2.2 (by decide)⟩

end ServiceLayer
